import Mathlib

/-!
Verification development for the Twilight-Generator repository.

The Python sources are shallowly embedded:
* Python numbers (floats/ints flowing through the parameter state) become `ℚ`/`ℤ`;
  the one transcendental computation (`math.cos` in `get_star_color`) is embedded
  over `ℝ` with `Real.cos`.
* Python `x % C` on numbers with a positive modulus is floor-based, embedded as `qmod`.
* Python `int(x)` truncates toward zero, embedded as `intTrunc`.
* Stateful classes (`TwilightState`, `Timeline`, `TwilightGenerator`) become
  records with explicit state-passing functions mirroring each method.
* The `random.Random` Mersenne-Twister stream is abstracted by a fixed
  deterministic function of (seed, position); the properties at issue depend on
  determinism, seeding and draw order, not on the concrete stream values.
-/

set_option maxRecDepth 4000
set_option maxHeartbeats 1000000

/-! ## utils.py -/

/-- `utils.clamp(value, min_value, max_value) = max(min_value, min(max_value, value))`. -/
def clamp (value lo hi : ℚ) : ℚ := max lo (min hi value)

/-- `utils.lerp(a, b, t) = (1 - t) * a + t * b`. -/
def lerp (a b t : ℚ) : ℚ := (1 - t) * a + t * b

/-- Python floor-based modulus `x % C` (sign of the result follows the divisor;
for the positive cycle lengths used here the result lies in `[0, C)`). -/
def qmod (x C : ℚ) : ℚ := x - C * ⌊x / C⌋

/-- Python `int(x)`: truncation toward zero. -/
def intTrunc (x : ℚ) : ℤ := if 0 ≤ x then ⌊x⌋ else -⌊-x⌋

/-! ## TwilightState (twilight_generator.py) -/

/-- `render_type` is validated to one of the two strings `spherical` / `flat`. -/
inductive RenderType where
  | spherical
  | flat
deriving DecidableEq

/-- The nine fields stored by `TwilightState` (each `_`-prefixed attribute). -/
structure TwilightState where
  width : ℤ
  height : ℤ
  seed : ℤ
  time_of_day : ℚ
  star_density : ℚ
  transition_ratio : ℚ
  latitude : ℚ
  longitude : ℚ
  render_type : RenderType
deriving DecidableEq

/-- The normalization applied by the `TwilightState` setters on values that pass
validation: `time_of_day`, `latitude`, `longitude` are wrapped by their cycle
lengths (`CYCLICAL_ATTRIBUTES`), `star_density` is clamped into `[0.1, 5.0]` and
`transition_ratio` into `[0.05, 0.5]`.  The integer fields are stored as given
(Python stores `int(value)`, the identity on integers). -/
def mkNorm (w h sd : ℤ) (tod dens ratio lat lon : ℚ) (rt : RenderType) :
    TwilightState :=
  { width := w
    height := h
    seed := sd
    time_of_day := qmod tod 24
    star_density := clamp dens (1/10) 5
    transition_ratio := clamp ratio (1/20) (1/2)
    latitude := qmod lat 360
    longitude := qmod lon 360
    render_type := rt }

/-- `TwilightState.__init__` routed through the validating setters: `width`,
`height` must be positive and `seed` must lie in `[0, 1000000]`, otherwise a
`ValueError` is raised (embedded as `Except.error`).  The cyclical and clamped
setters never raise on numeric input. -/
def TwilightState.make (w h sd : ℚ) (tod dens ratio lat lon : ℚ)
    (rt : RenderType) : Except String TwilightState :=
  if 0 < w then
    if 0 < h then
      if 0 ≤ sd ∧ sd ≤ 1000000 then
        Except.ok (mkNorm (intTrunc w) (intTrunc h) (intTrunc sd)
          tod dens ratio lat lon rt)
      else Except.error "Seed must be an integer between 0 and 1,000,000."
    else Except.error "Height must be a positive integer."
  else Except.error "Width must be a positive integer."

/-- The `latitude` property setter: numeric input is wrapped modulo 360
(the `ValueError` branch needs a non-numeric argument, which has no
representation for a `ℚ` input). -/
def TwilightState.set_latitude (s : TwilightState) (x : ℚ) : TwilightState :=
  { s with latitude := qmod x 360 }

/-- The `longitude` property setter: numeric input is wrapped modulo 360. -/
def TwilightState.set_longitude (s : TwilightState) (x : ℚ) : TwilightState :=
  { s with longitude := qmod x 360 }

/-- The `time_of_day` property setter: numeric input is wrapped modulo 24. -/
def TwilightState.set_time_of_day (s : TwilightState) (x : ℚ) : TwilightState :=
  { s with time_of_day := qmod x 24 }

/-- The `star_density` property setter (clamps into `[0.1, 5.0]`). -/
def TwilightState.set_star_density (s : TwilightState) (x : ℚ) : TwilightState :=
  { s with star_density := clamp x (1/10) 5 }

/-- `TwilightState.copy()`: constructs a fresh `TwilightState` from the stored
fields, re-running every setter's normalization. -/
def TwilightState.copy (s : TwilightState) : TwilightState :=
  mkNorm s.width s.height s.seed s.time_of_day s.star_density s.transition_ratio
    s.latitude s.longitude s.render_type

/-- Domain invariant of a `TwilightState`: what the validating setters establish. -/
def TwilightState.Wf (s : TwilightState) : Prop :=
  0 < s.width ∧ 0 < s.height ∧ 0 ≤ s.seed ∧ s.seed ≤ 1000000 ∧
  0 ≤ s.time_of_day ∧ s.time_of_day < 24 ∧
  1/10 ≤ s.star_density ∧ s.star_density ≤ 5 ∧
  1/20 ≤ s.transition_ratio ∧ s.transition_ratio ≤ 1/2 ∧
  0 ≤ s.latitude ∧ s.latitude < 360 ∧
  0 ≤ s.longitude ∧ s.longitude < 360

instance (s : TwilightState) : Decidable s.Wf := by
  unfold TwilightState.Wf; infer_instance

/-! ## Interpolation (twilight_animator.py imports `interpolate_states`) -/

/-- Traversal direction for cyclical attributes (spec §4.2 / the animator's
`direction` field). -/
inductive Direction where
  | forward
  | backward
deriving DecidableEq

/-- Cyclical interpolation with cycle length `C` (spec §4.2):
forward uses `delta = (b - a) mod C`, `result = (a + delta * t) mod C`;
backward uses `delta = (a - b) mod C`, `result = (a - delta * t) mod C`. -/
def cyclicalInterp (C a b t : ℚ) : Direction → ℚ
  | Direction.forward => qmod (a + qmod (b - a) C * t) C
  | Direction.backward => qmod (a - qmod (a - b) C * t) C

/-- Python `round` to nearest integer for the conceptually-integer fields. -/
def roundQ (x : ℚ) : ℤ := ⌊x + 1/2⌋

/-- Modelled from the spec: `interpolate_states` is imported by
`twilight_animator.py` from `twilight_generator` but its definition is absent
from the source files.  Per spec §4.2, linear numeric fields interpolate with
`a + (b - a) * t` (integer fields rounded), the cyclical fields `time_of_day`,
`latitude`, `longitude` use `cyclicalInterp` with cycle lengths 24/360/360 in
the requested direction, and `render_type` takes `a`'s value. -/
def interpolate_states (a b : TwilightState) (t : ℚ) (dir : Direction) :
    TwilightState :=
  { width := roundQ (lerp (a.width : ℚ) (b.width : ℚ) t)
    height := roundQ (lerp (a.height : ℚ) (b.height : ℚ) t)
    seed := roundQ (lerp (a.seed : ℚ) (b.seed : ℚ) t)
    time_of_day := cyclicalInterp 24 a.time_of_day b.time_of_day t dir
    star_density := lerp a.star_density b.star_density t
    transition_ratio := lerp a.transition_ratio b.transition_ratio t
    latitude := cyclicalInterp 360 a.latitude b.latitude t dir
    longitude := cyclicalInterp 360 a.longitude b.longitude t dir
    render_type := a.render_type }

/-! ## Keyframe and Timeline (twilight_animator.py) -/

/-- `Keyframe`: a `TwilightState` together with its frame number. -/
structure Keyframe where
  state : TwilightState
  frame_number : ℤ
deriving DecidableEq

/-- The sort key used by `Timeline.update` and `get_state_at_frame`
(`kf.frame_number`, ascending). -/
def kfLE (a b : Keyframe) : Prop := a.frame_number ≤ b.frame_number

/-- Strict version of the ordering: ascending frame numbers with no duplicates. -/
def kfLT (a b : Keyframe) : Prop := a.frame_number < b.frame_number

/-- Distinctness of frame numbers. -/
def neF (a b : Keyframe) : Prop := a.frame_number ≠ b.frame_number

instance : DecidableRel kfLE := fun a b => inferInstanceAs (Decidable (_ ≤ _))

instance : DecidableRel kfLT := fun a b => inferInstanceAs (Decidable (_ < _))

instance : DecidableRel neF := fun a b => inferInstanceAs (Decidable (_ ≠ _))

instance : IsTotal Keyframe kfLE := ⟨fun a b => Int.le_total a.frame_number b.frame_number⟩

instance : IsTrans Keyframe kfLE := ⟨fun _ _ _ hab hbc => le_trans hab hbc⟩

/-- `Timeline`'s attributes. -/
structure Timeline where
  keyframes : List Keyframe
  framerate : ℚ
  start_frame : ℤ
  end_frame : ℤ
deriving DecidableEq

/-- The removal loop shared by `add_keyframe` and `remove_keyframe`: pop the
first keyframe whose `frame_number` equals `n`, if any. -/
def removeFirstFrame (n : ℤ) : List Keyframe → List Keyframe
  | [] => []
  | kf :: rest =>
      if kf.frame_number = n then rest else kf :: removeFirstFrame n rest

/-- `Timeline.update(reset_start_end)`: sort the keyframes ascending by frame
number (the `isinstance` filter is the identity in this typed embedding); if
keyframes remain and `reset` is set, re-point `start_frame`/`end_frame` at the
first/last keyframe. -/
def Timeline.update (reset : Bool) (tl : Timeline) : Timeline :=
  match List.insertionSort kfLE tl.keyframes, reset with
  | [], _ => { tl with keyframes := [] }
  | k0 :: rest, false => { tl with keyframes := k0 :: rest }
  | k0 :: rest, true =>
      { tl with
        keyframes := k0 :: rest
        start_frame := k0.frame_number
        end_frame := ((k0 :: rest).getLast (List.cons_ne_nil k0 rest)).frame_number }

/-- `Timeline.__init__`: an empty keyframe list gives `start = end = 0`
(ignoring the optional overrides); otherwise the overrides default to the
first/last keyframe, and `update()` is invoked (which re-sorts and resets
`start`/`end`). -/
def Timeline.make (kfs : List Keyframe) (fr : ℚ) (s? e? : Option ℤ) : Timeline :=
  match kfs with
  | [] => Timeline.update true { keyframes := [], framerate := fr, start_frame := 0, end_frame := 0 }
  | k0 :: rest =>
      Timeline.update true
        { keyframes := k0 :: rest
          framerate := fr
          start_frame := s?.getD k0.frame_number
          end_frame := e?.getD (((k0 :: rest).getLast (List.cons_ne_nil k0 rest)).frame_number) }

/-- `Timeline.add_keyframe`: drop the first existing keyframe with the same
frame number, append the new one, then `update()`. -/
def Timeline.add_keyframe (tl : Timeline) (kf : Keyframe) : Timeline :=
  Timeline.update true
    { tl with keyframes := removeFirstFrame kf.frame_number tl.keyframes ++ [kf] }

/-- `Timeline.remove_keyframe(frame_number=n)`: pop the first keyframe with
frame number `n` (a no-op when absent; `update()` is not called). -/
def Timeline.remove_keyframe (tl : Timeline) (n : ℤ) : Timeline :=
  { tl with keyframes := removeFirstFrame n tl.keyframes }

/-- The bracketing-pair scan at the end of `get_state_at_frame`: find adjacent
keyframes with `start_frame ≤ f ≤ end_frame`, interpolate with
`t = (f - start) / (end - start)` (0 on a degenerate pair).  The call site
passes no direction; the spec-modelled `interpolate_states` is taken in its
forward direction. -/
def findBetween (f : ℤ) : List Keyframe → Option TwilightState
  | k0 :: k1 :: rest =>
      if k0.frame_number ≤ f ∧ f ≤ k1.frame_number then
        let steps : ℤ := k1.frame_number - k0.frame_number
        let t : ℚ := if 0 < steps then ((f - k0.frame_number : ℤ) : ℚ) / (steps : ℚ) else 0
        some (interpolate_states k0.state k1.state t Direction.forward)
      else findBetween f (k1 :: rest)
  | _ => none

/-- `Timeline.get_state_at_frame(frame_number)` on the timeline's own keyframes:
`None` when empty; otherwise sort, clamp to a copy of the first/last keyframe's
state outside the covered range, and interpolate between the bracketing pair
inside it. -/
def Timeline.get_state_at_frame (tl : Timeline) (f : ℤ) : Option TwilightState :=
  match List.insertionSort kfLE tl.keyframes with
  | [] => none
  | k0 :: rest =>
      if f ≤ k0.frame_number then some k0.state.copy
      else
        if ((k0 :: rest).getLast (List.cons_ne_nil k0 rest)).frame_number ≤ f then
          some (((k0 :: rest).getLast (List.cons_ne_nil k0 rest)).state.copy)
        else findBetween f (k0 :: rest)

/-! ## TwilightGenerator (twilight_generator.py) -/

/-- Deterministic abstraction of `random.Random(seed)`: a seeded stream read at
increasing positions.  The concrete Mersenne-Twister values are abstracted by a
fixed function of (seed, position); determinism, seeding and draw order are
preserved exactly. -/
structure PRNG where
  seed : ℤ
  pos : ℕ
deriving DecidableEq

/-- The raw stream value at the current position (an abstract stand-in for the
next Mersenne-Twister output). -/
def PRNG.next (p : PRNG) : ℕ := (p.seed.natAbs + 7 * p.pos + 13) % 1000

/-- `random.Random(seed)`. -/
def PRNG.new (seed : ℤ) : PRNG := { seed := seed, pos := 0 }

/-- `rng.uniform(0, 1)`: a value in `[0, 1)`, advancing the stream. -/
def PRNG.uniform (p : PRNG) : ℚ × PRNG :=
  ((p.next : ℚ) / 1000, { p with pos := p.pos + 1 })

/-- `rng.randint(lo, hi)`: a value in `[lo, hi]`, advancing the stream. -/
def PRNG.randint (p : PRNG) (lo hi : ℤ) : ℤ × PRNG :=
  (lo + ((p.next : ℤ) % (hi - lo + 1)), { p with pos := p.pos + 1 })

/-- The small-star comprehension: `n` draws of `(uniform(0,1), uniform(0,1))`. -/
def genPairs : ℕ → PRNG → List (ℚ × ℚ) × PRNG
  | 0, p => ([], p)
  | n + 1, p =>
      let u1 := p.uniform
      let u2 := u1.2.uniform
      let rest := genPairs n u2.2
      ((u1.1, u2.1) :: rest.1, rest.2)

/-- The big-star comprehension: `n` draws of
`(uniform(0,1), uniform(0,1), randint(szlo, szhi) / width)`. -/
def genTriples (szlo szhi width : ℤ) : ℕ → PRNG → List (ℚ × ℚ × ℚ) × PRNG
  | 0, p => ([], p)
  | n + 1, p =>
      let u1 := p.uniform
      let u2 := u1.2.uniform
      let sz := u2.2.randint szlo szhi
      let rest := genTriples szlo szhi width n sz.2
      ((u1.1, u2.1, (sz.1 : ℚ) / (width : ℚ)) :: rest.1, rest.2)

/-- The render output abstraction: `generate()` composites pixels from exactly
these generator fields (canvas size, the six drawing parameters and the two
master star lists), so the produced image is embedded as that tuple. -/
structure Img where
  width : ℤ
  height : ℤ
  time_of_day : ℚ
  star_density : ℚ
  transition_ratio : ℚ
  latitude : ℚ
  longitude : ℚ
  render_type : RenderType
  small_stars : List (ℚ × ℚ)
  big_stars : List (ℚ × ℚ × ℚ)
deriving DecidableEq

/-- The mutable attributes of `TwilightGenerator`.  `total_small_stars` and
`total_big_stars` are computed in `__init__` only and never refreshed by
`set_state`. -/
structure Generator where
  state : TwilightState
  width : ℤ
  height : ℤ
  seed : ℤ
  time_of_day : ℚ
  star_density : ℚ
  transition_ratio : ℚ
  latitude : ℚ
  longitude : ℚ
  render_type : RenderType
  image : Option Img
  random_gen : PRNG
  total_small_stars : ℤ
  total_big_stars : ℤ
  master_small_stars : List (ℚ × ℚ)
  master_big_stars : List (ℚ × ℚ × ℚ)
deriving DecidableEq

/-- The area scale factor `(width * height) / (1920 * 1080)`. -/
def areaScale (w h : ℤ) : ℚ := ((w * h : ℤ) : ℚ) / (1920 * 1080)

/-- `TwilightGenerator.__init__(state)`: mirror the state fields, start with no
image, seed the RNG, compute the master star totals from the area scale factor
at maximum density 5.0, and pre-generate the master lists — all small-star
pairs first, then all big-star triples whose integer pixel size is drawn from
`randint(max(1, int(width/960)), max(2, int(width/480)))` and normalized by the
width. -/
def Generator.init (st : TwilightState) : Generator :=
  let scale := areaScale st.width st.height
  let totalSmall := intTrunc (2500 * scale * 5)
  let totalBig := intTrunc (200 * scale * 5)
  let sizeMin := max 1 (intTrunc ((st.width : ℚ) / 960))
  let sizeMax := max 2 (intTrunc ((st.width : ℚ) / 480))
  let p0 := PRNG.new st.seed
  let smalls := genPairs totalSmall.toNat p0
  let bigs := genTriples sizeMin sizeMax st.width totalBig.toNat smalls.2
  { state := st
    width := st.width
    height := st.height
    seed := st.seed
    time_of_day := st.time_of_day
    star_density := st.star_density
    transition_ratio := st.transition_ratio
    latitude := st.latitude
    longitude := st.longitude
    render_type := st.render_type
    image := none
    random_gen := bigs.2
    total_small_stars := totalSmall
    total_big_stars := totalBig
    master_small_stars := smalls.1
    master_big_stars := bigs.1 }

/-- `TwilightGenerator._initialize_stars()`: regenerate the master lists from
the current RNG using the stored totals; the big-star integer size here is
drawn from the hardcoded `randint(1, 2)` (not the width-relative range used by
`__init__`). -/
def Generator.rebuildStars (g : Generator) : Generator :=
  let smalls := genPairs g.total_small_stars.toNat g.random_gen
  let bigs := genTriples 1 2 g.width g.total_big_stars.toNat smalls.2
  { g with
    master_small_stars := smalls.1
    master_big_stars := bigs.1
    random_gen := bigs.2 }

/-- `TwilightGenerator.set_state(state)`: mirror the new state's fields, reseed
the RNG with the new seed, and regenerate the master star lists; the cached
`image` attribute is left untouched. -/
def Generator.set_state (g : Generator) (st : TwilightState) : Generator :=
  Generator.rebuildStars
    { g with
      state := st
      width := st.width
      height := st.height
      seed := st.seed
      time_of_day := st.time_of_day
      star_density := st.star_density
      transition_ratio := st.transition_ratio
      latitude := st.latitude
      longitude := st.longitude
      render_type := st.render_type
      random_gen := PRNG.new st.seed }

/-- The image `generate()` would composite from the generator's current fields. -/
def Generator.renderOf (g : Generator) : Img :=
  { width := g.width
    height := g.height
    time_of_day := g.time_of_day
    star_density := g.star_density
    transition_ratio := g.transition_ratio
    latitude := g.latitude
    longitude := g.longitude
    render_type := g.render_type
    small_stars := g.master_small_stars
    big_stars := g.master_big_stars }

/-- `TwilightGenerator.generate()`: renders from the current fields and stores
the result in `self.image`. -/
def Generator.generate (g : Generator) : Generator :=
  { g with image := some g.renderOf }

/-- `TwilightGenerator.get_image()`: render only when no image exists yet, then
return a copy of the stored image (copies are identities on values). -/
def Generator.get_image (g : Generator) : Img × Generator :=
  match g.image with
  | some im => (im, g)
  | none =>
      let g2 := g.generate
      (g.renderOf, g2)

/-- The small-star count actually drawn by a render
(`int(len(master_small_stars) * star_density / max_density)`, shared by the
spherical and flat paths). -/
def Generator.displaySmallCount (g : Generator) : ℤ :=
  intTrunc ((g.master_small_stars.length : ℚ) * (g.star_density / 5))

/-- The big-star count actually drawn by a render. -/
def Generator.displayBigCount (g : Generator) : ℤ :=
  intTrunc ((g.master_big_stars.length : ℚ) * (g.star_density / 5))

/-! ## get_star_color (twilight_generator.py), over ℝ because of `math.cos` -/

/-- Python `int()` truncation on a real value. -/
noncomputable def intTruncR (x : ℝ) : ℤ := if 0 ≤ x then ⌊x⌋ else -⌊-x⌋

/-- `utils.lerp` over ℝ. -/
noncomputable def lerpR (a b t : ℝ) : ℝ := (1 - t) * a + t * b

/-- The brightness factor of `get_star_color`:
`-cos((time_of_day / 12) * pi) * 0.5 + 0.5`. -/
noncomputable def nightFactor (tod : ℝ) : ℝ :=
  -Real.cos (tod / 12 * Real.pi) * (1/2) + 1/2

/-- The brightness factor of `_generate_stars_flat`:
`-cos((time_of_day / 12) * pi) * 0.5 + 1`. -/
noncomputable def nightFactorFlat (tod : ℝ) : ℝ :=
  -Real.cos (tod / 12 * Real.pi) * (1/2) + 1

/-- `TwilightGenerator.get_star_color(y)`: below the transition cutoff the
color ramps from orange `(255, 72, 0)` to blue `(0, 110, 189)` with
`t = (y / height) / transition_ratio` and is then scaled by `nightFactor`;
at or above the cutoff the star is plain white `(255, 255, 255)`, returned
before any brightness adjustment. -/
noncomputable def get_star_color (height ratio_cut tod y : ℝ) : ℤ × ℤ × ℤ :=
  let ratio := y / height
  if ratio < ratio_cut then
    let t := ratio / ratio_cut
    let r := intTruncR (lerpR 255 0 t)
    let g := intTruncR (lerpR 72 110 t)
    let b := intTruncR (lerpR 0 189 t)
    let nf := nightFactor tod
    (intTruncR ((r : ℝ) * nf), intTruncR ((g : ℝ) * nf), intTruncR ((b : ℝ) * nf))
  else (255, 255, 255)

/-! ## Helper definitions and concrete test data -/

/-- Frame number of the first keyframe of a list (0 when empty). -/
def firstFrameOf : List Keyframe → ℤ
  | [] => 0
  | k :: _ => k.frame_number

/-- Frame number of the last keyframe of a list (0 when empty). -/
def lastFrameOf (l : List Keyframe) : ℤ :=
  match l.getLast? with
  | none => 0
  | some k => k.frame_number

/-- A valid state with `latitude = 350` (the spec's wrap example); all fields
are already in their normalized ranges. -/
def stateLat350 : TwilightState :=
  { width := 800, height := 600, seed := 1, time_of_day := 0, star_density := 1
    transition_ratio := 1/5, latitude := 350, longitude := 0
    render_type := RenderType.spherical }

/-- A valid state with `latitude = 10` (the spec's wrap example). -/
def stateLat10 : TwilightState :=
  { width := 800, height := 600, seed := 1, time_of_day := 0, star_density := 1
    transition_ratio := 1/5, latitude := 10, longitude := 0
    render_type := RenderType.spherical }

/-- A valid state at width 1920 — where `__init__`'s big-star size range
`randint(max(1, int(w/960)), max(2, int(w/480))) = randint(2, 4)` differs from
the `randint(1, 2)` hardcoded in `_initialize_stars` — with height 2 to keep
the master lists small (23 small stars, 1 big star). -/
def c3State : TwilightState :=
  { width := 1920, height := 2, seed := 0, time_of_day := 0, star_density := 1
    transition_ratio := 1/5, latitude := 0, longitude := 0
    render_type := RenderType.spherical }

/-- A valid 1×1 state (its master star lists are empty). -/
def tinyState : TwilightState :=
  { width := 1, height := 1, seed := 0, time_of_day := 0, star_density := 1
    transition_ratio := 1/5, latitude := 0, longitude := 0
    render_type := RenderType.spherical }

/-- The 1×1 state with `time_of_day = 6` instead. -/
def tinyState6 : TwilightState :=
  { width := 1, height := 1, seed := 0, time_of_day := 6, star_density := 1
    transition_ratio := 1/5, latitude := 0, longitude := 0
    render_type := RenderType.spherical }

/-- A valid 192×108 state (area scale exactly 1/100: 125 small master stars). -/
def c7Init : TwilightState :=
  { width := 192, height := 108, seed := 0, time_of_day := 0, star_density := 1
    transition_ratio := 1/5, latitude := 0, longitude := 0
    render_type := RenderType.spherical }

/-- A full-HD state at maximal density 5. -/
def c7Next : TwilightState :=
  { width := 1920, height := 1080, seed := 0, time_of_day := 0, star_density := 5
    transition_ratio := 1/5, latitude := 0, longitude := 0
    render_type := RenderType.spherical }

/-- A well-formed state used in concrete timeline witnesses. -/
def wfStateA : TwilightState :=
  { width := 800, height := 600, seed := 1, time_of_day := 2, star_density := 1
    transition_ratio := 1/5, latitude := 10, longitude := 20
    render_type := RenderType.spherical }

/-- A second well-formed state used in concrete timeline witnesses. -/
def wfStateB : TwilightState :=
  { width := 800, height := 600, seed := 2, time_of_day := 3, star_density := 2
    transition_ratio := 1/4, latitude := 30, longitude := 40
    render_type := RenderType.flat }

/-! ## General lemmas -/

theorem qmod_eq_fract_mul (x C : ℚ) (hC : C ≠ 0) :
    qmod x C = C * Int.fract (x / C) := by
  rw [Int.fract, qmod, mul_sub, mul_div_cancel₀ x hC]

theorem qmod_nonneg (x C : ℚ) (hC : 0 < C) : 0 ≤ qmod x C := by
  rw [qmod_eq_fract_mul x C hC.ne']
  exact mul_nonneg hC.le (Int.fract_nonneg _)

theorem qmod_lt (x C : ℚ) (hC : 0 < C) : qmod x C < C := by
  rw [qmod_eq_fract_mul x C hC.ne']
  calc C * Int.fract (x / C) < C * 1 :=
        (mul_lt_mul_left hC).mpr (Int.fract_lt_one _)
    _ = C := mul_one C

theorem qmod_eq_self (x C : ℚ) (hC : 0 < C) (h0 : 0 ≤ x) (h1 : x < C) :
    qmod x C = x := by
  have hfl : ⌊x / C⌋ = 0 := by
    rw [Int.floor_eq_zero_iff]
    constructor
    · exact div_nonneg h0 hC.le
    · rw [div_lt_one hC]; exact h1
  simp [qmod, hfl]

theorem clamp_eq_self (x lo hi : ℚ) (h0 : lo ≤ x) (h1 : x ≤ hi) :
    clamp x lo hi = x := by
  rw [clamp, min_eq_right h1, max_eq_right h0]

theorem copy_eq_self_of_wf (s : TwilightState) (h : s.Wf) : s.copy = s := by
  obtain ⟨_, _, _, _, h5, h6, h7, h8, h9, h10, h11, h12, h13, h14⟩ := h
  unfold TwilightState.copy mkNorm
  rw [qmod_eq_self _ _ (by norm_num) h5 h6, clamp_eq_self _ _ _ h7 h8,
    clamp_eq_self _ _ _ h9 h10, qmod_eq_self _ _ (by norm_num) h11 h12,
    qmod_eq_self _ _ (by norm_num) h13 h14]

theorem update_keyframes (b : Bool) (tl : Timeline) :
    (Timeline.update b tl).keyframes = List.insertionSort kfLE tl.keyframes := by
  cases h : List.insertionSort kfLE tl.keyframes with
  | nil => cases b <;> simp [Timeline.update, h]
  | cons k0 rest => cases b <;> simp [Timeline.update, h]

theorem update_framerate (b : Bool) (tl : Timeline) :
    (Timeline.update b tl).framerate = tl.framerate := by
  cases h : List.insertionSort kfLE tl.keyframes with
  | nil => cases b <;> simp [Timeline.update, h]
  | cons k0 rest => cases b <;> simp [Timeline.update, h]

theorem make_keyframes (kfs : List Keyframe) (fr : ℚ) (s? e? : Option ℤ) :
    (Timeline.make kfs fr s? e?).keyframes = List.insertionSort kfLE kfs := by
  cases kfs with
  | nil => simp [Timeline.make, update_keyframes]
  | cons k0 rest => simp [Timeline.make, update_keyframes]

theorem genPairs_snd (n : ℕ) (p : PRNG) :
    (genPairs n p).2 = { seed := p.seed, pos := p.pos + 2 * n } := by
  induction n generalizing p with
  | zero => rfl
  | succ n ih =>
      simp only [genPairs, PRNG.uniform, ih]
      refine congrArg (PRNG.mk p.seed) ?_
      omega

theorem genPairs_length (n : ℕ) (p : PRNG) : (genPairs n p).1.length = n := by
  induction n generalizing p with
  | zero => rfl
  | succ n ih => simp [genPairs, ih]

theorem genTriples_length (szlo szhi w : ℤ) (n : ℕ) (p : PRNG) :
    (genTriples szlo szhi w n p).1.length = n := by
  induction n generalizing p with
  | zero => rfl
  | succ n ih => simp [genTriples, ih]

/-! ## C1 -/

/-- C1: every cyclical setter (`latitude`, `longitude` modulo 360, `time_of_day`
modulo 24) stores exactly `x mod C`, a value in `[0, C)`, both when assigning to
an existing state and when constructing one; the setters are total on numeric
input (no error branch is reachable). -/
theorem C1_cyclical_setters_normalize (s : TwilightState) (x : ℚ)
    (w h sd : ℤ) (dens ratio : ℚ) (rt : RenderType) :
    ((s.set_latitude x).latitude = qmod x 360 ∧
      0 ≤ (s.set_latitude x).latitude ∧ (s.set_latitude x).latitude < 360) ∧
    ((s.set_longitude x).longitude = qmod x 360 ∧
      0 ≤ (s.set_longitude x).longitude ∧ (s.set_longitude x).longitude < 360) ∧
    ((s.set_time_of_day x).time_of_day = qmod x 24 ∧
      0 ≤ (s.set_time_of_day x).time_of_day ∧
      (s.set_time_of_day x).time_of_day < 24) ∧
    ((mkNorm w h sd x dens ratio x x rt).latitude = qmod x 360 ∧
      (mkNorm w h sd x dens ratio x x rt).longitude = qmod x 360 ∧
      (mkNorm w h sd x dens ratio x x rt).time_of_day = qmod x 24) := by
  refine ⟨⟨rfl, ?_, ?_⟩, ⟨rfl, ?_, ?_⟩, ⟨rfl, ?_, ?_⟩, rfl, rfl, rfl⟩
  · exact qmod_nonneg x 360 (by norm_num)
  · exact qmod_lt x 360 (by norm_num)
  · exact qmod_nonneg x 360 (by norm_num)
  · exact qmod_lt x 360 (by norm_num)
  · exact qmod_nonneg x 24 (by norm_num)
  · exact qmod_lt x 24 (by norm_num)

/-! ## C2 -/

/-- C2: for any two states and `t ∈ [0, 1]`, the forward interpolation of each
cyclical field with cycle length `C` is `(a + ((b - a) mod C) * t) mod C`; in
particular latitude 350 → 10 forward at `t = 1/2` lands on 0 (also when sampled
through the timeline between keyframes at frames 0 and 100), while the backward
direction from the same pair has midpoint 180. -/
theorem C2_forward_cyclical_interpolation :
    (∀ (a b : TwilightState) (t : ℚ), 0 ≤ t → t ≤ 1 →
      (interpolate_states a b t Direction.forward).latitude
          = qmod (a.latitude + qmod (b.latitude - a.latitude) 360 * t) 360 ∧
      (interpolate_states a b t Direction.forward).longitude
          = qmod (a.longitude + qmod (b.longitude - a.longitude) 360 * t) 360 ∧
      (interpolate_states a b t Direction.forward).time_of_day
          = qmod (a.time_of_day + qmod (b.time_of_day - a.time_of_day) 24 * t) 24) ∧
    (interpolate_states stateLat350 stateLat10 (1/2) Direction.forward).latitude = 0 ∧
    ((Timeline.make [⟨stateLat350, 0⟩, ⟨stateLat10, 100⟩] 30 none none).get_state_at_frame
        50).map TwilightState.latitude = some 0 ∧
    (interpolate_states stateLat350 stateLat10 (1/2) Direction.backward).latitude = 180 := by
  refine ⟨fun a b t _ _ => ⟨rfl, rfl, rfl⟩, ?_, ?_, ?_⟩
  · norm_num [interpolate_states, cyclicalInterp, stateLat350, stateLat10, qmod]
  · have hkf : (Timeline.make [⟨stateLat350, 0⟩, ⟨stateLat10, 100⟩] 30 none none).keyframes
        = [⟨stateLat350, 0⟩, ⟨stateLat10, 100⟩] := by
      rw [make_keyframes]
      norm_num [List.insertionSort, List.orderedInsert, kfLE]
    rw [Timeline.get_state_at_frame, hkf]
    norm_num [List.insertionSort, List.orderedInsert, kfLE, List.getLast, findBetween,
      interpolate_states, cyclicalInterp, stateLat350, stateLat10, qmod]
  · norm_num [interpolate_states, cyclicalInterp, stateLat350, stateLat10, qmod]

/-- Witness for C2 at a concrete input with the hypotheses discharged. -/
theorem C2_witness :
    (interpolate_states stateLat350 stateLat10 (1/2) Direction.forward).latitude
      = qmod (stateLat350.latitude
          + qmod (stateLat10.latitude - stateLat350.latitude) 360 * (1/2)) 360 :=
  (C2_forward_cyclical_interpolation.1 stateLat350 stateLat10 (1/2)
    (by norm_num) (by norm_num)).1

/-! ## C3 -/

/-- C3: with (seed, width, height, star_density) held fixed, the star lists
generated at construction and the ones regenerated by `set_state` with the very
same state agree on every small-star pair (same seeded stream, same draw order)
but differ in the big-star sizes — `__init__` draws sizes from the
width-relative `randint(2, 4)` at width 1920 (here the single big star gets
size 3/1920) while `_initialize_stars` draws from `randint(1, 2)` (size
2/1920) — so regeneration is not bit-identical. -/
theorem C3_rebuild_not_bit_identical :
    (Generator.init c3State).master_small_stars
        = ((Generator.init c3State).set_state c3State).master_small_stars ∧
    (Generator.init c3State).master_big_stars.map (fun s => s.2.2)
        = [(3 : ℚ)/1920] ∧
    ((Generator.init c3State).set_state c3State).master_big_stars.map (fun s => s.2.2)
        = [(2 : ℚ)/1920] ∧
    (Generator.init c3State).master_big_stars
        ≠ ((Generator.init c3State).set_state c3State).master_big_stars := by
  have hS : intTrunc (2500 * areaScale c3State.width c3State.height * 5) = 23 := by
    norm_num [c3State, areaScale, intTrunc]
  have hB : intTrunc (200 * areaScale c3State.width c3State.height * 5) = 1 := by
    norm_num [c3State, areaScale, intTrunc]
  have hMin : max 1 (intTrunc ((c3State.width : ℚ) / 960)) = 2 := by
    norm_num [c3State, intTrunc]
  have hMax : max 2 (intTrunc ((c3State.width : ℚ) / 480)) = 4 := by
    norm_num [c3State, intTrunc]
  have h2 : (Generator.init c3State).master_big_stars.map (fun s => s.2.2)
      = [(3 : ℚ)/1920] := by
    simp only [Generator.init, hS, hB, hMin, hMax, genPairs_snd, PRNG.new]
    norm_num [c3State, genTriples, PRNG.uniform, PRNG.randint, PRNG.next]
  have h3 : ((Generator.init c3State).set_state c3State).master_big_stars.map
      (fun s => s.2.2) = [(2 : ℚ)/1920] := by
    simp only [Generator.set_state, Generator.rebuildStars, Generator.init,
      hS, hB, hMin, hMax, genPairs_snd, PRNG.new]
    norm_num [c3State, genTriples, PRNG.uniform, PRNG.randint, PRNG.next]
  refine ⟨rfl, h2, h3, fun hEq => ?_⟩
  rw [hEq, h3] at h2
  have : (2 : ℚ)/1920 = 3/1920 := by simpa using h2
  norm_num at this

/-! ## C9 -/

/-- C9 (amended): sampling any timeline that contains zero keyframes — however
it became empty — returns the explicit absent value `none`, not an error and
not a default state; a timeline CONSTRUCTED from an empty list has
`start_frame = end_frame = 0` (whatever overrides were passed), but
`remove_keyframe` never touches `start_frame`/`end_frame` (it does not call
`update()`), so a timeline emptied by removal keeps its stale values. -/
theorem C9_empty_timeline_sampling (tl : Timeline) (f : ℤ)
    (h : tl.keyframes = []) :
    tl.get_state_at_frame f = none ∧
    (∀ (fr : ℚ) (s? e? : Option ℤ),
      (Timeline.make [] fr s? e?).start_frame = 0 ∧
      (Timeline.make [] fr s? e?).end_frame = 0) ∧
    (∀ (tl2 : Timeline) (n : ℤ),
      (tl2.remove_keyframe n).start_frame = tl2.start_frame ∧
      (tl2.remove_keyframe n).end_frame = tl2.end_frame) := by
  refine ⟨?_, fun fr s? e? => ⟨rfl, rfl⟩, fun tl2 n => ⟨rfl, rfl⟩⟩
  unfold Timeline.get_state_at_frame
  rw [h]
  rfl

/-- Witness for C9 on a concrete empty timeline carrying stale nonzero
`start_frame`/`end_frame`. -/
theorem C9_witness :
    Timeline.get_state_at_frame ⟨[], 30, 5, 5⟩ 7 = none :=
  (C9_empty_timeline_sampling ⟨[], 30, 5, 5⟩ 7 rfl).1

/-- C9 counterexample: construct a timeline with a single keyframe at frame 5
and remove it — the result contains zero keyframes yet keeps
`start_frame = end_frame = 5`, falsifying the claim's `start = end = 0`
conjunct for empty timelines reached through `remove_keyframe`. -/
theorem C9_counterexample :
    ((Timeline.make [⟨wfStateA, 5⟩] 30 none none).remove_keyframe 5).keyframes
        = [] ∧
    ((Timeline.make [⟨wfStateA, 5⟩] 30 none none).remove_keyframe 5).start_frame
        = 5 ∧
    ((Timeline.make [⟨wfStateA, 5⟩] 30 none none).remove_keyframe 5).end_frame
        = 5 ∧
    ((Timeline.make [⟨wfStateA, 5⟩] 30 none none).remove_keyframe 5).start_frame
        ≠ 0 := by
  refine ⟨rfl, rfl, rfl, by decide⟩

/-! ## C10 -/

/-- C10: after `add_keyframe`, `start_frame` and `end_frame` point at the new
first/last keyframe's frame number — any overridden values are discarded
(because `update()` runs with `reset_start_end=True`) — while `framerate` is
untouched. -/
theorem C10_add_keyframe_resets (tl : Timeline) (kf : Keyframe) :
    (tl.add_keyframe kf).start_frame = firstFrameOf (tl.add_keyframe kf).keyframes ∧
    (tl.add_keyframe kf).end_frame = lastFrameOf (tl.add_keyframe kf).keyframes ∧
    (tl.add_keyframe kf).framerate = tl.framerate := by
  unfold Timeline.add_keyframe
  cases h : List.insertionSort kfLE
      (removeFirstFrame kf.frame_number tl.keyframes ++ [kf]) with
  | nil =>
      exfalso
      have hlen := (List.perm_insertionSort kfLE
        (removeFirstFrame kf.frame_number tl.keyframes ++ [kf])).length_eq
      rw [h] at hlen
      simp at hlen
  | cons k0 rest =>
      refine ⟨?_, ?_, ?_⟩
      · simp [Timeline.update, h, firstFrameOf]
      · simp [Timeline.update, h, lastFrameOf, List.getLast?_eq_getLast]
      · simp [Timeline.update, h]

/-! ## C6 -/

/-- C6 (amended): `get_image` in the initial `NoImage` state triggers an
implicit render of the current fields and stores it; in the `Ready` state it
returns the cached image; but `set_state` does NOT invalidate the cache — the
`image` attribute is never cleared — so the next `get_image` still returns the
old image, and a render from the new state happens only via an explicit
`generate()` call. -/
theorem C6_image_cache_machine (g : Generator) :
    (g.image = none → g.get_image = (g.renderOf, g.generate)) ∧
    (∀ im, g.image = some im → g.get_image = (im, g)) ∧
    (∀ st, (g.set_state st).image = g.image) := by
  refine ⟨fun h => ?_, fun im h => ?_, fun st => rfl⟩
  · simp [Generator.get_image, h]
  · simp [Generator.get_image, h]

/-- Witness for C6 at a concrete generator with no image yet. -/
theorem C6_witness :
    (Generator.init tinyState).get_image
      = ((Generator.init tinyState).renderOf, (Generator.init tinyState).generate) :=
  (C6_image_cache_machine (Generator.init tinyState)).1 rfl

/-- C6 counterexample: render at `time_of_day = 0`, `set_state` to
`time_of_day = 6`, then `get_image` — the result is the old cached image
(rendered from the initial state), not a render of the newly set state. -/
theorem C6_counterexample :
    ((((Generator.init tinyState).get_image).2.set_state tinyState6).get_image).1
        = (Generator.init tinyState).renderOf ∧
    ((((Generator.init tinyState).get_image).2.set_state tinyState6).get_image).1
        ≠ (((Generator.init tinyState).get_image).2.set_state tinyState6).renderOf := by
  refine ⟨rfl, fun h => ?_⟩
  have h0 : ((((Generator.init tinyState).get_image).2.set_state
      tinyState6).get_image).1.time_of_day = 0 := rfl
  have h6 : ((((Generator.init tinyState).get_image).2.set_state
      tinyState6).renderOf).time_of_day = 6 := rfl
  rw [h, h6] at h0
  norm_num at h0

/-! ## C7 -/

/-- Cast bridge for `Int.toNat` under the nonnegativity the generator provides. -/
theorem natCast_toNat_q (z : ℤ) (h : 0 ≤ z) : ((z.toNat : ℕ) : ℚ) = (z : ℚ) := by
  exact_mod_cast congrArg (Int.cast : ℤ → ℚ) (Int.toNat_of_nonneg h)

theorem intTrunc_nonneg (x : ℚ) (h : 0 ≤ x) : 0 ≤ intTrunc x := by
  rw [intTrunc, if_pos h]
  exact Int.floor_nonneg.mpr h

/-- C7 (amended): the displayed star counts of a render are
`int(int(base * 5 * scale0) * density / 5)` where `scale0` is the area scale
factor of the dimensions the generator was CONSTRUCTED with (2500/200 base
small/big counts) and `density` is the current star_density — `set_state` never
refreshes `total_small_stars`/`total_big_stars`, so the counts do not track
dimensions set later. -/
theorem C7_display_count_formula (st0 st1 : TwilightState)
    (h0 : 0 < st0.width) (h1 : 0 < st0.height) :
    ((Generator.init st0).set_state st1).displaySmallCount
      = intTrunc ((intTrunc (2500 * areaScale st0.width st0.height * 5) : ℚ)
          * (st1.star_density / 5)) ∧
    ((Generator.init st0).set_state st1).displayBigCount
      = intTrunc ((intTrunc (200 * areaScale st0.width st0.height * 5) : ℚ)
          * (st1.star_density / 5)) ∧
    (Generator.init st0).displaySmallCount
      = intTrunc ((intTrunc (2500 * areaScale st0.width st0.height * 5) : ℚ)
          * (st0.star_density / 5)) ∧
    (Generator.init st0).displayBigCount
      = intTrunc ((intTrunc (200 * areaScale st0.width st0.height * 5) : ℚ)
          * (st0.star_density / 5)) := by
  have hsc : (0 : ℚ) ≤ areaScale st0.width st0.height := by
    apply div_nonneg _ (by norm_num)
    exact_mod_cast mul_nonneg h0.le h1.le
  have hS : 0 ≤ intTrunc (2500 * areaScale st0.width st0.height * 5) :=
    intTrunc_nonneg _ (by positivity)
  have hB : 0 ≤ intTrunc (200 * areaScale st0.width st0.height * 5) :=
    intTrunc_nonneg _ (by positivity)
  have hlenS : ((Generator.init st0).set_state st1).master_small_stars.length
      = (intTrunc (2500 * areaScale st0.width st0.height * 5)).toNat := by
    simp [Generator.set_state, Generator.rebuildStars, Generator.init, genPairs_length]
  have hlenB : ((Generator.init st0).set_state st1).master_big_stars.length
      = (intTrunc (200 * areaScale st0.width st0.height * 5)).toNat := by
    simp [Generator.set_state, Generator.rebuildStars, Generator.init, genTriples_length]
  have hlenS0 : (Generator.init st0).master_small_stars.length
      = (intTrunc (2500 * areaScale st0.width st0.height * 5)).toNat := by
    simp [Generator.init, genPairs_length]
  have hlenB0 : (Generator.init st0).master_big_stars.length
      = (intTrunc (200 * areaScale st0.width st0.height * 5)).toNat := by
    simp [Generator.init, genTriples_length]
  refine ⟨?_, ?_, ?_, ?_⟩
  · rw [Generator.displaySmallCount, hlenS, natCast_toNat_q _ hS]; rfl
  · rw [Generator.displayBigCount, hlenB, natCast_toNat_q _ hB]; rfl
  · rw [Generator.displaySmallCount, hlenS0, natCast_toNat_q _ hS]; rfl
  · rw [Generator.displayBigCount, hlenB0, natCast_toNat_q _ hB]; rfl

/-- Witness for C7 at concrete construction/rendered states. -/
theorem C7_witness :
    ((Generator.init c7Init).set_state c7Next).displaySmallCount
      = intTrunc ((intTrunc (2500 * areaScale c7Init.width c7Init.height * 5) : ℚ)
          * (c7Next.star_density / 5)) :=
  (C7_display_count_formula c7Init c7Next (by decide) (by decide)).1

/-- C7 counterexample: construct at 192×108 (area scale 1/100, 125 small
master stars), `set_state` to full-HD 1920×1080 at density 5, and render: the
displayed small-star count is 125, not the 12500 the claim's formula
`base * currentScale * density` demands for the state being rendered. -/
theorem C7_counterexample :
    ((Generator.init c7Init).set_state c7Next).displaySmallCount = 125 ∧
    intTrunc (2500 * areaScale c7Next.width c7Next.height * c7Next.star_density) = 12500 ∧
    ((Generator.init c7Init).set_state c7Next).displaySmallCount
      ≠ intTrunc (2500 * areaScale c7Next.width c7Next.height * c7Next.star_density) := by
  have hT : intTrunc (2500 * areaScale c7Init.width c7Init.height * 5) = 125 := by
    norm_num [c7Init, areaScale, intTrunc]
  have hlen : ((Generator.init c7Init).set_state c7Next).master_small_stars.length
      = (intTrunc (2500 * areaScale c7Init.width c7Init.height * 5)).toNat := by
    simp [Generator.set_state, Generator.rebuildStars, Generator.init, genPairs_length]
  have hd : ((Generator.init c7Init).set_state c7Next).star_density = 5 := rfl
  have ha : ((Generator.init c7Init).set_state c7Next).displaySmallCount = 125 := by
    rw [Generator.displaySmallCount, hlen, hT, hd]
    norm_num [intTrunc]
  have hb : intTrunc (2500 * areaScale c7Next.width c7Next.height * c7Next.star_density)
      = 12500 := by
    norm_num [c7Next, areaScale, intTrunc]
  refine ⟨ha, hb, ?_⟩
  rw [ha, hb]
  decide

/-! ## C4 -/

/-- C4: on a timeline whose keyframes respect the ordering invariant (strictly
ascending frame numbers), sampling at or before the first keyframe's frame
returns a copy of the first keyframe's state — field-for-field equal to it on
well-formed states — and sampling at or after the last keyframe's frame returns
a copy of the last keyframe's state. -/
theorem C4_sampling_clamps_to_end_keyframes (tl : Timeline) (k0 : Keyframe)
    (rest : List Keyframe) (hk : tl.keyframes = k0 :: rest)
    (hs : tl.keyframes.Pairwise kfLT) (f : ℤ) :
    (f ≤ k0.frame_number →
      tl.get_state_at_frame f = some k0.state.copy ∧
      (k0.state.Wf → tl.get_state_at_frame f = some k0.state)) ∧
    (((k0 :: rest).getLast (List.cons_ne_nil k0 rest)).frame_number ≤ f →
      tl.get_state_at_frame f
          = some ((k0 :: rest).getLast (List.cons_ne_nil k0 rest)).state.copy ∧
      (((k0 :: rest).getLast (List.cons_ne_nil k0 rest)).state.Wf →
        tl.get_state_at_frame f
            = some ((k0 :: rest).getLast (List.cons_ne_nil k0 rest)).state)) := by
  have hsort : List.Sorted kfLE tl.keyframes := hs.imp (fun h => le_of_lt h)
  have hins : List.insertionSort kfLE tl.keyframes = tl.keyframes :=
    hsort.insertionSort_eq
  have hget : tl.get_state_at_frame f =
      (if f ≤ k0.frame_number then some k0.state.copy
       else
         if ((k0 :: rest).getLast (List.cons_ne_nil k0 rest)).frame_number ≤ f then
           some (((k0 :: rest).getLast (List.cons_ne_nil k0 rest)).state.copy)
         else findBetween f (k0 :: rest)) := by
    unfold Timeline.get_state_at_frame
    rw [hins, hk]
  constructor
  · intro hf
    rw [hget, if_pos hf]
    exact ⟨rfl, fun hwf => by rw [copy_eq_self_of_wf _ hwf]⟩
  · intro hlast
    cases rest with
    | nil =>
        have hgl : (([k0] : List Keyframe).getLast (List.cons_ne_nil k0 [])) = k0 :=
          rfl
        rw [hget]
        simp only [hgl] at hlast ⊢
        by_cases hf : f ≤ k0.frame_number
        · rw [if_pos hf]
          exact ⟨rfl, fun hwf => by rw [copy_eq_self_of_wf _ hwf]⟩
        · rw [if_neg hf, if_pos hlast]
          exact ⟨rfl, fun hwf => by rw [copy_eq_self_of_wf _ hwf]⟩
    | cons k1 rs =>
        have hmem : (k0 :: k1 :: rs).getLast (List.cons_ne_nil k0 (k1 :: rs))
            ∈ k1 :: rs := by
          rw [List.getLast_cons (List.cons_ne_nil k1 rs)]
          exact List.getLast_mem (List.cons_ne_nil k1 rs)
        have hlt : kfLT k0 ((k0 :: k1 :: rs).getLast
            (List.cons_ne_nil k0 (k1 :: rs))) := by
          have hp := (List.pairwise_cons.mp (hk ▸ hs)).1
          exact hp _ hmem
        have hnf : ¬ f ≤ k0.frame_number := by
          have hlt2 : k0.frame_number < f := lt_of_lt_of_le hlt hlast
          omega
        rw [hget, if_neg hnf, if_pos hlast]
        exact ⟨rfl, fun hwf => by rw [copy_eq_self_of_wf _ hwf]⟩

/-- Witness for C4 with a concrete two-keyframe timeline and frames on both
sides of the covered range. -/
theorem C4_witness :
    Timeline.get_state_at_frame ⟨[⟨wfStateA, 0⟩, ⟨wfStateB, 10⟩], 30, 0, 10⟩ (-3)
        = some wfStateA ∧
    Timeline.get_state_at_frame ⟨[⟨wfStateA, 0⟩, ⟨wfStateB, 10⟩], 30, 0, 10⟩ 99
        = some wfStateB := by
  constructor
  · exact ((C4_sampling_clamps_to_end_keyframes
        ⟨[⟨wfStateA, 0⟩, ⟨wfStateB, 10⟩], 30, 0, 10⟩ ⟨wfStateA, 0⟩ [⟨wfStateB, 10⟩]
        rfl (by decide) (-3)).1
      (by decide)).2 (by norm_num [TwilightState.Wf, wfStateA])
  · exact ((C4_sampling_clamps_to_end_keyframes
        ⟨[⟨wfStateA, 0⟩, ⟨wfStateB, 10⟩], 30, 0, 10⟩ ⟨wfStateA, 0⟩ [⟨wfStateB, 10⟩]
        rfl (by decide) 99).2
      (by decide)).2 (by norm_num [TwilightState.Wf, wfStateB])

/-! ## C5 -/

theorem neF_symm : Symmetric neF := fun _ _ hab => Ne.symm hab

theorem removeFirstFrame_sublist (n : ℤ) (l : List Keyframe) :
    (removeFirstFrame n l).Sublist l := by
  induction l with
  | nil => simp [removeFirstFrame]
  | cons kf rest ih =>
      by_cases h : kf.frame_number = n
      · simp only [removeFirstFrame, if_pos h]
        exact List.sublist_cons_self kf rest
      · simp only [removeFirstFrame, if_neg h]
        exact ih.cons₂ kf

theorem removeFirstFrame_not_mem (n : ℤ) (l : List Keyframe)
    (h : l.Pairwise neF) :
    ∀ x ∈ removeFirstFrame n l, x.frame_number ≠ n := by
  induction l with
  | nil => simp [removeFirstFrame]
  | cons kf rest ih =>
      rw [List.pairwise_cons] at h
      by_cases hkf : kf.frame_number = n
      · intro x hx heq
        rw [removeFirstFrame, if_pos hkf] at hx
        exact h.1 x hx (hkf.trans heq.symm)
      · intro x hx heq
        rw [removeFirstFrame, if_neg hkf] at hx
        rcases List.mem_cons.mp hx with hx1 | hx2
        · exact hkf (hx1 ▸ heq)
        · exact ih h.2 x hx2 heq

theorem removeFirstFrame_length (n : ℤ) (l : List Keyframe)
    (h : ∃ x ∈ l, x.frame_number = n) :
    (removeFirstFrame n l).length + 1 = l.length := by
  induction l with
  | nil => simp at h
  | cons kf rest ih =>
      by_cases hkf : kf.frame_number = n
      · simp [removeFirstFrame, hkf]
      · obtain ⟨x, hx, hxn⟩ := h
        have hx2 : x ∈ rest := by
          rcases List.mem_cons.mp hx with hx1 | hx2
          · exact absurd (hx1 ▸ hxn) hkf
          · exact hx2
        simp only [removeFirstFrame, if_neg hkf, List.length_cons]
        rw [← ih ⟨x, hx2, hxn⟩]

theorem insertionSort_strict (l : List Keyframe) (h : l.Pairwise neF) :
    (List.insertionSort kfLE l).Pairwise kfLT := by
  have hperm := List.perm_insertionSort kfLE l
  have hne : (List.insertionSort kfLE l).Pairwise neF :=
    (hperm.pairwise_iff (fun hab => neF_symm hab)).mpr h
  have hle : (List.insertionSort kfLE l).Pairwise kfLE :=
    List.sorted_insertionSort kfLE l
  exact (hle.and hne).imp (fun hab => lt_of_le_of_ne hab.1 hab.2)

/-- C5 (amended): construction always sorts the keyframes ascending by frame
number, and keeps them strictly sorted (unique frames) whenever the input
frames are distinct — but construction performs no deduplication, so a
duplicated input survives it; `add_keyframe` and `remove_keyframe` preserve the
strictly-sorted invariant, and `add_keyframe` at an existing frame number
replaces that keyframe's state and leaves the length unchanged. -/
theorem C5_sorted_unique_invariant :
    (∀ (kfs : List Keyframe) (fr : ℚ) (s? e? : Option ℤ),
        (Timeline.make kfs fr s? e?).keyframes.Pairwise kfLE) ∧
    (∀ (kfs : List Keyframe) (fr : ℚ) (s? e? : Option ℤ), kfs.Pairwise neF →
        (Timeline.make kfs fr s? e?).keyframes.Pairwise kfLT) ∧
    (∀ (tl : Timeline) (kf : Keyframe), tl.keyframes.Pairwise kfLT →
        (tl.add_keyframe kf).keyframes.Pairwise kfLT) ∧
    (∀ (tl : Timeline) (kf : Keyframe), tl.keyframes.Pairwise kfLT →
        (∃ x ∈ tl.keyframes, x.frame_number = kf.frame_number) →
        (tl.add_keyframe kf).keyframes.length = tl.keyframes.length ∧
        ∀ x ∈ (tl.add_keyframe kf).keyframes,
          x.frame_number = kf.frame_number → x = kf) ∧
    (∀ (tl : Timeline) (n : ℤ), tl.keyframes.Pairwise kfLT →
        (tl.remove_keyframe n).keyframes.Pairwise kfLT) := by
  have hneOf : ∀ (l : List Keyframe), l.Pairwise kfLT → l.Pairwise neF :=
    fun l hl => hl.imp (fun hab => ne_of_lt hab)
  have happend : ∀ (tl : Timeline) (kf : Keyframe), tl.keyframes.Pairwise kfLT →
      (removeFirstFrame kf.frame_number tl.keyframes ++ [kf]).Pairwise neF := by
    intro tl kf hs
    rw [List.pairwise_append]
    refine ⟨(hneOf _ hs).sublist (removeFirstFrame_sublist _ _), by simp [neF], ?_⟩
    intro a ha b hb
    rw [List.mem_singleton] at hb
    subst hb
    exact removeFirstFrame_not_mem _ _ (hneOf _ hs) a ha
  refine ⟨?_, ?_, ?_, ?_, ?_⟩
  · intro kfs fr s? e?
    rw [make_keyframes]
    exact List.sorted_insertionSort kfLE kfs
  · intro kfs fr s? e? h
    rw [make_keyframes]
    exact insertionSort_strict kfs h
  · intro tl kf hs
    rw [Timeline.add_keyframe, update_keyframes]
    exact insertionSort_strict _ (happend tl kf hs)
  · intro tl kf hs hmem
    constructor
    · rw [Timeline.add_keyframe, update_keyframes]
      rw [(List.perm_insertionSort kfLE _).length_eq]
      rw [List.length_append, List.length_singleton]
      exact removeFirstFrame_length _ _ hmem
    · intro x hx hxf
      rw [Timeline.add_keyframe, update_keyframes] at hx
      have hx2 := (List.perm_insertionSort kfLE _).mem_iff.mp hx
      rcases List.mem_append.mp hx2 with hx3 | hx3
      · exact absurd hxf (removeFirstFrame_not_mem _ _ (hneOf _ hs) x hx3)
      · exact List.mem_singleton.mp hx3
  · intro tl n hs
    exact hs.sublist (removeFirstFrame_sublist n tl.keyframes)

/-- Witness for C5 on a concrete timeline: adding a keyframe at the existing
frame 10 keeps the strictly-sorted invariant and the length. -/
theorem C5_witness :
    (Timeline.add_keyframe ⟨[⟨wfStateA, 0⟩, ⟨wfStateB, 10⟩], 30, 0, 10⟩
        ⟨wfStateA, 10⟩).keyframes.Pairwise kfLT ∧
    (Timeline.add_keyframe ⟨[⟨wfStateA, 0⟩, ⟨wfStateB, 10⟩], 30, 0, 10⟩
        ⟨wfStateA, 10⟩).keyframes.length = 2 := by
  constructor
  · exact C5_sorted_unique_invariant.2.2.1
      ⟨[⟨wfStateA, 0⟩, ⟨wfStateB, 10⟩], 30, 0, 10⟩ ⟨wfStateA, 10⟩ (by decide)
  · exact (C5_sorted_unique_invariant.2.2.2.1
      ⟨[⟨wfStateA, 0⟩, ⟨wfStateB, 10⟩], 30, 0, 10⟩ ⟨wfStateA, 10⟩ (by decide)
      ⟨⟨wfStateB, 10⟩, by simp, rfl⟩).1

/-- C5 counterexample: `Timeline.__init__` sorts but does not deduplicate — a
timeline constructed from two keyframes that share frame number 0 retains both,
violating frame-number uniqueness after a constructor operation. -/
theorem C5_counterexample :
    ¬ (Timeline.make [⟨tinyState, 0⟩, ⟨tinyState6, 0⟩] 30 none none).keyframes.Pairwise
        neF := by
  intro h
  rw [make_keyframes] at h
  have hkeq : List.insertionSort kfLE [⟨tinyState, 0⟩, ⟨tinyState6, 0⟩]
      = [⟨tinyState, 0⟩, (⟨tinyState6, 0⟩ : Keyframe)] := by
    simp [List.insertionSort, List.orderedInsert, kfLE]
  rw [hkeq, List.pairwise_cons] at h
  exact h.1 ⟨tinyState6, 0⟩ (by simp) rfl


/-! ## C8 -/

/-- C8 (amended): a star's color below the transition cutoff is the
position-dependent orange-to-blue ramp scaled by
`night_factor(tod) = -cos(tod*pi/12)*0.5 + 0.5`; stars at or above the cutoff
are plain white with no brightness modulation at all.  The night factor is 0 at
`time_of_day = 0` and `24` and 1 at `time_of_day = 12`, and it strictly
increases from midnight to noon — stars dim near midnight and brighten near the
daytime phase, the opposite direction of the claim (the flat-projection factor
`-cos(tod*pi/12)*0.5 + 1` moves the same way, from 1/2 at midnight to 3/2 at
noon). -/
theorem C8_star_brightness_peaks_at_noon :
    (∀ h c tod y : ℝ, ¬ (y / h < c) → get_star_color h c tod y = (255, 255, 255)) ∧
    (∀ t1 t2 : ℝ, 0 ≤ t1 → t1 < t2 → t2 ≤ 12 → nightFactor t1 < nightFactor t2) ∧
    nightFactor 0 = 0 ∧ nightFactor 12 = 1 ∧ nightFactor 24 = 0 ∧
    nightFactorFlat 0 = 1/2 ∧ nightFactorFlat 12 = 3/2 ∧
    (∀ h c tod y : ℝ, y / h < c →
      get_star_color h c tod y
        = (intTruncR ((intTruncR (lerpR 255 0 (y / h / c)) : ℝ) * nightFactor tod),
           intTruncR ((intTruncR (lerpR 72 110 (y / h / c)) : ℝ) * nightFactor tod),
           intTruncR ((intTruncR (lerpR 0 189 (y / h / c)) : ℝ) * nightFactor tod))) := by
  have hπ := Real.pi_pos
  refine ⟨?_, ?_, ?_, ?_, ?_, ?_, ?_, ?_⟩
  · intro h c tod y hcond
    simp [get_star_color, hcond]
  · intro t1 t2 h0 h12 h2
    have ha1 : (0 : ℝ) ≤ t1 / 12 * Real.pi :=
      mul_nonneg (div_nonneg h0 (by norm_num)) hπ.le
    have ha2 : t2 / 12 * Real.pi ≤ Real.pi := by
      have hle : t2 / 12 ≤ 1 := (div_le_one (by norm_num)).mpr h2
      calc t2 / 12 * Real.pi ≤ 1 * Real.pi :=
            mul_le_mul_of_nonneg_right hle hπ.le
        _ = Real.pi := one_mul _
    have hlt : t1 / 12 * Real.pi < t2 / 12 * Real.pi :=
      mul_lt_mul_of_pos_right (div_lt_div_of_pos_right h12 (by norm_num)) hπ
    have hcos : Real.cos (t2 / 12 * Real.pi) < Real.cos (t1 / 12 * Real.pi) :=
      Real.cos_lt_cos_of_nonneg_of_le_pi ha1 ha2 hlt
    rw [nightFactor, nightFactor]
    linarith
  · rw [nightFactor]
    norm_num
  · rw [nightFactor]
    norm_num [Real.cos_pi]
  · rw [nightFactor]
    have h2 : (24 : ℝ) / 12 * Real.pi = 2 * Real.pi := by ring
    rw [h2, Real.cos_two_pi]
    norm_num
  · rw [nightFactorFlat]
    norm_num
  · rw [nightFactorFlat]
    norm_num [Real.cos_pi]
  · intro h c tod y hcond
    simp [get_star_color, hcond]

/-- Witness for C8: the night factor at midnight is strictly below the one at
noon, and a star at the very top of a 1080-high canvas (above the cutoff) is
white. -/
theorem C8_witness :
    nightFactor 0 < nightFactor 12 ∧
    get_star_color 1080 (1/5) 0 1000 = (255, 255, 255) := by
  constructor
  · exact C8_star_brightness_peaks_at_noon.2.1 0 12 le_rfl (by norm_num) (by norm_num)
  · exact C8_star_brightness_peaks_at_noon.1 1080 (1/5) 0 1000 (by norm_num)

/-- C8 counterexample: at the same in-band screen position `y = 0`, the star is
black `(0, 0, 0)` at `time_of_day = 0` (midnight) and full-brightness orange
`(255, 72, 0)` at `time_of_day = 12` (noon) — the code dims stars near midnight
and brightens them near the daytime phase, not the other way around. -/
theorem C8_counterexample :
    get_star_color 1080 (1/5) 0 0 = (0, 0, 0) ∧
    get_star_color 1080 (1/5) 12 0 = (255, 72, 0) ∧
    (get_star_color 1080 (1/5) 0 0).1 < (get_star_color 1080 (1/5) 12 0).1 := by
  have hc : ((0 : ℝ) / 1080) < 1/5 := by norm_num
  have hnf0 : nightFactor 0 = 0 := by
    rw [nightFactor]
    norm_num
  have hnf12 : nightFactor 12 = 1 := by
    rw [nightFactor]
    norm_num [Real.cos_pi]
  have hlerp : ∀ a b : ℝ, lerpR a b ((0 : ℝ) / 1080 / (1/5)) = a := by
    intro a b
    rw [lerpR]
    norm_num
  have h0 : get_star_color 1080 (1/5) 0 0 = (0, 0, 0) := by
    rw [get_star_color]
    simp only [hc, if_true, if_pos hc, hlerp, hnf0]
    norm_num [intTruncR]
  have h12 : get_star_color 1080 (1/5) 12 0 = (255, 72, 0) := by
    rw [get_star_color]
    simp only [if_pos hc, hlerp, hnf12]
    norm_num [intTruncR]
  refine ⟨h0, h12, ?_⟩
  rw [h0, h12]
  norm_num
